import Mathlib

/-!
Shallow embedding of the core of the `orst-scrapper` repository
(`src/scripts/`): configuration constants, the API response validation of
the synchronous and asynchronous clients, the page-fetch and domain-crawl
logic, the Thai collation utilities, the dictionary diff engine, the
progress tracker and the crawl orchestrator, together with theorems that
settle the specification claims against these definitions.
-/

set_option maxRecDepth 10000

/-! ## Configuration constants (`scripts/config.py`) -/

/-- Words per page of the remote API (`RESULTS_PER_PAGE` in `config.py`). -/
def RESULTS_PER_PAGE : Int := 10

/-- Default retry budget (`MAX_RETRIES` in `config.py`). -/
def MAX_RETRIES : Nat := 3

/-- The Thai alphabet in Royal Institute order (`THAI_ALPHABET` in
`config.py`), one character per entry. -/
def THAI_ALPHABET : List Char :=
  [ 'ก', 'ข', 'ฃ', 'ค', 'ฅ', 'ฆ', 'ง', 'จ', 'ฉ', 'ช', 'ซ', 'ฌ', 'ญ', 'ฎ',
    'ฏ', 'ฐ', 'ฑ', 'ฒ', 'ณ', 'ด', 'ต', 'ถ', 'ท', 'ธ', 'น', 'บ', 'ป', 'ผ',
    'ฝ', 'พ', 'ฟ', 'ภ', 'ม', 'ย', 'ร', 'ฤ', 'ล', 'ฦ', 'ว', 'ศ', 'ษ', 'ส',
    'ห', 'ฬ', 'อ', 'ฮ' ]

/-- `THAI_CONSONANTS_RANGE` in `config.py`. -/
def THAI_CONSONANTS_RANGE : Nat × Nat := (0x0E01, 0x0E2E)

/-- `THAI_VOWELS_RANGE` in `config.py`. -/
def THAI_VOWELS_RANGE : Nat × Nat := (0x0E30, 0x0E3A)

/-- `THAI_TONE_MARKS_RANGE` in `config.py`. -/
def THAI_TONE_MARKS_RANGE : Nat × Nat := (0x0E48, 0x0E4B)

/-- `THAI_SPECIAL_CHARS_RANGE` in `config.py`. -/
def THAI_SPECIAL_CHARS_RANGE : Nat × Nat := (0x0E4C, 0x0E4F)

/-! ## JSON payloads

Decoded JSON values as the clients see them after `response.json()`.
Integers, strings, arrays and objects cover every payload shape the
validation code distinguishes. -/

/-- A decoded JSON value. -/
inductive JsonVal where
  | int (n : Int)
  | str (s : String)
  | arr (xs : List JsonVal)
  | obj (fields : List (String × JsonVal))

/-- Result of the Python `int(x)` conversion applied to a decoded JSON
value: an integer stays itself, a string is parsed (a non-numeric string
raises `ValueError`), and a list or object raises `TypeError`. -/
inductive PyIntResult where
  | ok (n : Int)
  | valueError
  | typeError
deriving DecidableEq

/-- `int(x)` on a decoded JSON value. -/
def pyInt : JsonVal → PyIntResult
  | .int n => .ok n
  | .str s =>
      match s.toInt? with
      | some n => .ok n
      | none => .valueError
  | .arr _ => .typeError
  | .obj _ => .typeError

/-! ## Synchronous client (`scripts/api_client.py`) -/

namespace ORSTAPIClient

/-- Response validation of `ORSTAPIClient.fetch_page` (lines 247-253):
the payload must be a list of exactly two elements, the first an `int`
and the second a list; both checks are `isinstance` checks, so the sign
of the count and the element types of the word list are not inspected.
`error` stands for the `ValueError` the code raises. -/
def validate_response (data : JsonVal) : Except Unit (Int × List JsonVal) :=
  match data with
  | .arr [.int n, .arr ws] => .ok (n, ws)
  | _ => .error ()

end ORSTAPIClient

/-! ## Asynchronous client (`scripts/async_api_client.py`) -/

namespace AsyncORSTAPIClient

/-- Result of the parse step inside `AsyncORSTAPIClient.fetch_page`:
success, a `ValueError` (caught by the retry loop), or a `TypeError`
(raised by `int(data[0])` on a list or object, not caught). -/
inductive ParseResult where
  | ok (total_count : Int) (words : List JsonVal)
  | valueError
  | typeError

/-- `item.get("headword", item.get("word", ""))` on an object item. -/
def extract_word (fields : List (String × JsonVal)) : JsonVal :=
  match fields.lookup "headword" with
  | some v => v
  | none =>
      match fields.lookup "word" with
      | some v => v
      | none => .str ""

/-- The word-list comprehension of `AsyncORSTAPIClient.fetch_page`
(lines 228-232): non-object items are dropped, object items are mapped
to their headword/word field. -/
def extract_words (items : List JsonVal) : List JsonVal :=
  items.filterMap fun item =>
    match item with
    | .obj fields => some (extract_word fields)
    | _ => none

/-- Parse step of `AsyncORSTAPIClient.fetch_page` (lines 222-234): the
payload must be a list of length at least two whose second element is a
list; `int(data[0])` converts the count; any other shape raises
`ValueError`. -/
def parse_response (data : JsonVal) : ParseResult :=
  match data with
  | .arr (a :: .arr items :: _) =>
      match pyInt a with
      | .ok n => .ok n (extract_words items)
      | .valueError => .valueError
      | .typeError => .typeError
  | _ => .valueError

end AsyncORSTAPIClient

/-! ## Network outcomes

One network attempt is either a completed HTTP response (status plus
decoded payload) or a transport-level failure (timeout or connection
error). A run of attempts is a map from attempt number to outcome. -/

/-- Outcome of one network attempt. -/
inductive NetOutcome where
  | resp (status : Nat) (payload : JsonVal)
  | transportError

namespace ORSTAPIClient

/-- `status_forcelist` of the urllib3 `Retry` configured in
`ORSTAPIClient._create_session` (line 102). -/
def RETRY_STATUS_FORCELIST : List Nat := [429, 500, 502, 503, 504]

/-- The urllib3 `Retry` loop that `session.get` runs: a transport failure
or a status in the forcelist consumes one unit of the retry budget; any
other response is returned to the caller at once. Returns the result and
the number of network attempts made (`fuel` starts at
`max_retries + 1`). -/
def session_get_go (outcomes : Nat → NetOutcome) :
    Nat → Nat → Except Unit (Nat × JsonVal) × Nat
  | 0, attempt => (.error (), attempt)
  | fuel + 1, attempt =>
      match outcomes attempt with
      | .transportError => session_get_go outcomes fuel (attempt + 1)
      | .resp s p =>
          if s ∈ RETRY_STATUS_FORCELIST then
            session_get_go outcomes fuel (attempt + 1)
          else (.ok (s, p), attempt + 1)

/-- `session.get` with the retry adapter of `_create_session`:
`max_retries + 1` attempts at most. -/
def session_get (outcomes : Nat → NetOutcome) (max_retries : Nat) :
    Except Unit (Nat × JsonVal) × Nat :=
  session_get_go outcomes (max_retries + 1) 0

/-- Errors `ORSTAPIClient.fetch_page` can surface: the retry budget of
the adapter exhausted, `raise_for_status` on a returned error status, or
the `ValueError` of response validation. -/
inductive FetchError where
  | retriesExhausted
  | httpStatus (status : Nat)
  | validation
deriving DecidableEq

/-- `ORSTAPIClient.fetch_page` without the cache path (lines 231-278):
`session.get` (with its internal retries), then `raise_for_status`
(raises on any status of 400 or above), then response validation, which
runs exactly once on the returned response. Returns the result and the
total number of network attempts. -/
def fetch_page_attempts (outcomes : Nat → NetOutcome) (max_retries : Nat) :
    Except FetchError (Int × List JsonVal) × Nat :=
  match session_get outcomes max_retries with
  | (.error _, n) => (.error .retriesExhausted, n)
  | (.ok (s, p), n) =>
      if 400 ≤ s then (.error (.httpStatus s), n)
      else
        match validate_response p with
        | .ok r => (.ok r, n)
        | .error _ => (.error .validation, n)

end ORSTAPIClient

namespace AsyncORSTAPIClient

/-- What one attempt of the async retry loop does with its outcome:
success, an exception caught by `except (httpx.HTTPError, ValueError)`
(and therefore retried), or an uncaught exception (the `TypeError` of
`int(data[0])` on a list or object). -/
inductive AsyncAttempt where
  | success (total_count : Int) (words : List JsonVal)
  | caught
  | uncaught

/-- Classification of one attempt inside `AsyncORSTAPIClient.fetch_page`:
a transport failure is an `httpx.HTTPError`; `raise_for_status` raises an
`httpx.HTTPStatusError` for every status of 400 or above, retryable or
not; a `ValueError` from parsing is caught as well. -/
def classify_attempt : NetOutcome → AsyncAttempt
  | .transportError => .caught
  | .resp s p =>
      if 400 ≤ s then .caught
      else
        match parse_response p with
        | .ok n ws => .success n ws
        | .valueError => .caught
        | .typeError => .uncaught

/-- Errors the async `fetch_page` can surface: the `RuntimeError` raised
after `max_retries + 1` failed attempts, or the uncaught `TypeError`. -/
inductive AsyncFetchError where
  | runtimeError
  | typeError
deriving DecidableEq

/-- The `for attempt in range(self.config.max_retries + 1)` loop of
`AsyncORSTAPIClient.fetch_page` (lines 214-274). Returns the result and
the number of network attempts made. -/
def fetch_page_go (outcomes : Nat → NetOutcome) :
    Nat → Nat → Except AsyncFetchError (Int × List JsonVal) × Nat
  | 0, attempt => (.error .runtimeError, attempt)
  | fuel + 1, attempt =>
      match classify_attempt (outcomes attempt) with
      | .success n ws => (.ok (n, ws), attempt + 1)
      | .uncaught => (.error .typeError, attempt + 1)
      | .caught => fetch_page_go outcomes fuel (attempt + 1)

/-- Async `fetch_page` retry loop entered with the full attempt budget. -/
def fetch_page_attempts (outcomes : Nat → NetOutcome) (max_retries : Nat) :
    Except AsyncFetchError (Int × List JsonVal) × Nat :=
  fetch_page_go outcomes (max_retries + 1) 0

end AsyncORSTAPIClient

/-! ## Page responses and the two fetch-all-pages strategies -/

namespace ORSTAPIClient

/-- `APIResponse` of `api_client.py`. -/
structure APIResponse where
  total_count : Int
  words : List String
  page : Nat
  domain : Char

/-- `APIResponse.total_pages` (lines 55-58):
`(total_count + RESULTS_PER_PAGE - 1) // RESULTS_PER_PAGE` with Python
floor division. -/
def APIResponse.total_pages (r : APIResponse) : Int :=
  (r.total_count + RESULTS_PER_PAGE - 1).fdiv RESULTS_PER_PAGE

/-- The `for page in range(2, first_page.total_pages + 1)` loop of
`ORSTAPIClient.fetch_all_pages`: pages are fetched strictly in order and
the first failure aborts the loop with that error. -/
def fetch_pages_loop {ε : Type} (fetch_page : Nat → Except ε APIResponse)
    (acc : List String) : List Nat → Except ε (List String)
  | [] => .ok acc
  | p :: rest =>
      match fetch_page p with
      | .error e => .error e
      | .ok r => fetch_pages_loop fetch_page (acc ++ r.words) rest

/-- The page numbers `2 .. total_pages` remaining after page 1. -/
def remaining_pages (first : APIResponse) : List Nat :=
  List.range' 2 (first.total_pages.toNat - 1)

/-- `ORSTAPIClient.fetch_all_pages` (lines 280-308), the sequential
strategy, over an abstract single-page fetch for one fixed domain. -/
def fetch_all_pages {ε : Type} (fetch_page : Nat → Except ε APIResponse) :
    Except ε (List String) :=
  match fetch_page 1 with
  | .error e => .error e
  | .ok first => fetch_pages_loop fetch_page first.words (remaining_pages first)

end ORSTAPIClient

namespace AsyncORSTAPIClient

/-- `AsyncAPIResponse` of `async_api_client.py`. -/
structure AsyncAPIResponse where
  total_count : Int
  words : List String
  page : Nat
  domain : Char

/-- `AsyncAPIResponse.total_pages` (lines 58-61), the same formula as the
synchronous client. -/
def AsyncAPIResponse.total_pages (r : AsyncAPIResponse) : Int :=
  (r.total_count + RESULTS_PER_PAGE - 1).fdiv RESULTS_PER_PAGE

/-- The contribution of one gathered page to the word list: its words on
success, nothing when the gathered result is an exception (which the
code only logs). -/
def page_words {ε : Type} (fetch_page : Nat → Except ε AsyncAPIResponse)
    (p : Nat) : List String :=
  match fetch_page p with
  | .ok r => r.words
  | .error _ => []

/-- `AsyncORSTAPIClient.fetch_all_pages` (lines 276-306), the
bounded-concurrent strategy: page 1 first; then the remaining pages via
`asyncio.gather(..., return_exceptions=True)`, whose results come back in
task order; responses that are exceptions are only logged, so the words
of failed pages are silently omitted from the returned list. -/
def fetch_all_pages {ε : Type} (fetch_page : Nat → Except ε AsyncAPIResponse) :
    Except ε (List String) :=
  match fetch_page 1 with
  | .error e => .error e
  | .ok first =>
      if first.total_pages ≤ 1 then .ok first.words
      else
        .ok (first.words ++
          ((List.range' 2 (first.total_pages.toNat - 1)).map
            (page_words fetch_page)).flatten)

end AsyncORSTAPIClient

/-! ## The cache path of the synchronous `fetch_page` -/

namespace ORSTAPIClient

/-- A cache file on disk: either readable with the serialized response,
or unreadable (I/O error, corrupt JSON, missing key), which
`_load_from_cache` degrades to a miss. -/
inductive CacheFile where
  | readable (r : APIResponse)
  | corrupt

/-- Mutable client state touched by `fetch_page`: the on-disk cache
(keyed by `(domain, page)`), plus counters for the network calls issued
and the rate-limit waits performed. -/
structure ClientState where
  cache : List ((Char × Nat) × CacheFile)
  network_calls : Nat
  rate_limit_waits : Nat

/-- `ORSTAPIClient._load_from_cache` (lines 145-175): `None` when caching
is disabled, the entry is absent, or the file cannot be read. -/
def load_from_cache (cache_enabled : Bool) (st : ClientState)
    (domain : Char) (page : Nat) : Option APIResponse :=
  if cache_enabled then
    match List.lookup (domain, page) st.cache with
    | some (.readable r) => some r
    | some .corrupt => none
    | none => none
  else none

/-- `ORSTAPIClient._save_to_cache` (lines 177-198): overwrite the cache
record for `(response.domain, response.page)` when caching is enabled. -/
def save_to_cache (cache_enabled : Bool) (st : ClientState)
    (r : APIResponse) : ClientState :=
  if cache_enabled then
    { st with cache := ((r.domain, r.page), CacheFile.readable r) :: st.cache }
  else st

/-- `ORSTAPIClient.fetch_page` (lines 200-271) with the network modelled
as an oracle from `(domain, page)` to the parsed `(total_count, words)`
of a validated response, or a failure. Order as in the source: cache
check first (a hit returns at once, before the rate-limit wait); on a
miss, wait out the rate limit, issue the network call, and on success
persist the response to the cache before returning it. -/
def fetch_page (cache_enabled : Bool)
    (net : Char × Nat → Except Unit (Int × List String)) (st : ClientState)
    (domain : Char) (page : Nat) :
    Except (Unit × ClientState) (APIResponse × ClientState) :=
  match load_from_cache cache_enabled st domain page with
  | some r => .ok (r, st)
  | none =>
      let st1 : ClientState :=
        { st with
          rate_limit_waits := st.rate_limit_waits + 1,
          network_calls := st.network_calls + 1 }
      match net (domain, page) with
      | .error e => .error (e, st1)
      | .ok (tc, ws) =>
          let r : APIResponse := ⟨tc, ws, page, domain⟩
          .ok (r, save_to_cache cache_enabled st1 r)

end ORSTAPIClient

/-! ## Thai utilities (`scripts/thai_utils.py`) -/

/-- Bounded range check used by the character classifiers. -/
def between (lo hi n : Nat) : Bool := decide (lo ≤ n ∧ n ≤ hi)

/-- `is_thai_character` (lines 23-44): the code point lies in one of the
four configured Thai script ranges. -/
def is_thai_character (c : Char) : Bool :=
  between THAI_CONSONANTS_RANGE.1 THAI_CONSONANTS_RANGE.2 c.toNat ||
  between THAI_VOWELS_RANGE.1 THAI_VOWELS_RANGE.2 c.toNat ||
  between THAI_TONE_MARKS_RANGE.1 THAI_TONE_MARKS_RANGE.2 c.toNat ||
  between THAI_SPECIAL_CHARS_RANGE.1 THAI_SPECIAL_CHARS_RANGE.2 c.toNat

/-- The Python `str.isspace` predicate on a single character: the Unicode
whitespace code points. -/
def python_isspace (c : Char) : Bool :=
  between 0x09 0x0D c.toNat ||
  between 0x1C 0x1F c.toNat ||
  decide (c.toNat = 0x20) ||
  decide (c.toNat = 0x85) ||
  decide (c.toNat = 0xA0) ||
  decide (c.toNat = 0x1680) ||
  between 0x2000 0x200A c.toNat ||
  decide (c.toNat = 0x2028) ||
  decide (c.toNat = 0x2029) ||
  decide (c.toNat = 0x202F) ||
  decide (c.toNat = 0x205F) ||
  decide (c.toNat = 0x3000)

/-- `is_valid_thai_word` (lines 47-67): non-empty, and every character is
either whitespace (allowed only when `allow_spaces`) or a Thai
character. -/
def is_valid_thai_word (word : String) (allow_spaces : Bool) : Bool :=
  !word.data.isEmpty &&
  word.data.all fun c =>
    if python_isspace c then allow_spaces else is_thai_character c

/-- `is_compound_word` (lines 87-96): contains a space, a hyphen, or an
en-dash. -/
def is_compound_word (word : String) : Bool :=
  word.data.contains ' ' || word.data.contains '-' || word.data.contains '–'

/-- `not word or not word.strip()`: the word is empty or all
whitespace. -/
def is_blank (word : String) : Bool := word.data.all python_isspace

/-- `filter_invalid_words` (lines 170-202): drop blank words; when
compounds are not allowed, drop compound words; when strict, drop words
failing `is_valid_thai_word` (with spaces allowed exactly when compounds
are). -/
def filter_invalid_words (words : List String)
    (allow_compounds strict_thai_only : Bool) : List String :=
  words.filter fun w =>
    !is_blank w &&
    (allow_compounds || !is_compound_word w) &&
    (!strict_thai_only || is_valid_thai_word w allow_compounds)

/-- The `thai_order` rank map of `create_thai_sort_key` (line 111):
position of a character within `THAI_ALPHABET`, if any. -/
def thai_order_index (c : Char) : Option Nat := THAI_ALPHABET.indexOf? c

/-- The per-character key of `create_thai_sort_key.sort_key`
(lines 123-133): an alphabet character keys as `(rank, 0)`, any other
Thai character as `(1000, code point)`, anything else as
`(2000, code point)`. -/
def char_sort_key (c : Char) : Nat × Nat :=
  match thai_order_index c with
  | some i => (i, 0)
  | none =>
      if is_thai_character c then (1000, c.toNat) else (2000, c.toNat)

/-- `sort_key` of `create_thai_sort_key`: the per-character key sequence
of a word. -/
def sort_key (word : String) : List (Nat × Nat) := word.data.map char_sort_key

/-- Python comparison of two key tuples: lexicographic, with a tuple that
is a strict prefix of another comparing smaller. -/
def key_le : List (Nat × Nat) → List (Nat × Nat) → Bool
  | [], _ => true
  | _ :: _, [] => false
  | a :: k1, b :: k2 =>
      if a.1 < b.1 then true
      else if b.1 < a.1 then false
      else if a.2 < b.2 then true
      else if b.2 < a.2 then false
      else key_le k1 k2

/-- The word comparison induced by `sorted(words, key=sort_key)`. -/
def word_le (a b : String) : Bool := key_le (sort_key a) (sort_key b)

/-- Strict version: `a` sorts strictly before `b`. -/
def word_lt (a b : String) : Prop := word_le a b = true ∧ word_le b a = false

/-- The word comparison as a relation, for use with the sort. -/
def word_le_rel (a b : String) : Prop := word_le a b = true

instance : DecidableRel word_le_rel := fun a b => by
  unfold word_le_rel
  infer_instance

/-- `sort_thai_words` (lines 139-149): `sorted(words, key=sort_key)` is a
stable sort of the words by the collation key; it is modelled by the
canonical stable sort, insertion sort, under the key comparison. -/
def sort_thai_words (words : List String) : List String :=
  words.insertionSort word_le_rel

/-! ## Diff engine (`scripts/dictionary_diff.py`) -/

/-- `DictionaryDiff` (lines 16-52): the three set-valued fields and the
two counts. -/
structure DictionaryDiff where
  added_words : Finset String
  removed_words : Finset String
  unchanged_words : Finset String
  old_count : Nat
  new_count : Nat
deriving DecidableEq

/-- `compare_dictionaries` (lines 55-83): both inputs collapse to sets;
`added = new - old`, `removed = old - new`, `unchanged = old ∩ new`; the
counts are the lengths of the input lists. -/
def compare_dictionaries (old_words new_words : List String) :
    DictionaryDiff :=
  let old_set := old_words.toFinset
  let new_set := new_words.toFinset
  { added_words := new_set \ old_set
    removed_words := old_set \ new_set
    unchanged_words := old_set ∩ new_set
    old_count := old_words.length
    new_count := new_words.length }

/-! ## Progress tracker (`scripts/progress_tracker.py`)

Domains are modelled as `Char` (the repository uses one-character
strings); wall-clock timestamps as a `Nat` supplied by the caller. The
`saved_results` field models the `partial_results` dict of the source,
as an association list with Python dict insert-or-replace semantics. -/

/-- Python dict assignment `d[k] = v`: replace in place if the key is
present, append otherwise. -/
def dict_insert (k : Char) (v : List String) :
    List (Char × List String) → List (Char × List String)
  | [] => [(k, v)]
  | (k1, v1) :: rest =>
      if k1 = k then (k, v) :: rest else (k1, v1) :: dict_insert k v rest

/-- Python set add. -/
def set_add (c : Char) (s : List Char) : List Char :=
  if c ∈ s then s else s ++ [c]

/-- `ProgressState` (lines 18-74). -/
structure ProgressState where
  current_char_index : Nat := 0
  completed_chars : List Char := []
  total_words_scraped : Nat := 0
  last_update_time : Nat := 0
  saved_results : List (Char × List String) := []

/-- `ProgressState.mark_completed` (lines 40-52): add the character to
the completed set, store its words, add their number to the running
total, and stamp the time. -/
def ProgressState.mark_completed (st : ProgressState) (now : Nat)
    (char : Char) (words : List String) : ProgressState :=
  { st with
    completed_chars := set_add char st.completed_chars,
    saved_results := dict_insert char words st.saved_results,
    total_words_scraped := st.total_words_scraped + words.length,
    last_update_time := now }

/-- `ProgressState.get_all_words` (lines 65-74): all stored word lists
flattened in insertion order. -/
def ProgressState.get_all_words (st : ProgressState) : List String :=
  (st.saved_results.map Prod.snd).flatten

/-- `ProgressTracker` (lines 77-174): in-memory state plus the persisted
checkpoint file (absent until the first save). -/
structure ProgressTracker where
  state : ProgressState
  saved_file : Option ProgressState

/-- A tracker before any progress: fresh state, no checkpoint file. -/
def fresh_tracker : ProgressTracker := ⟨{}, none⟩

/-- `ProgressTracker.save` (lines 121-139): persist the in-memory state
to the checkpoint file. -/
def ProgressTracker.save (t : ProgressTracker) : ProgressTracker :=
  { t with saved_file := some t.state }

/-- `ProgressTracker.mark_char_completed` (lines 161-174): update the
state, then save. -/
def ProgressTracker.mark_char_completed (t : ProgressTracker) (now : Nat)
    (char : Char) (words : List String) : ProgressTracker :=
  ProgressTracker.save { t with state := t.state.mark_completed now char words }

/-- `ProgressTracker.update_char_index` (lines 152-159): set the current
character index, then save. -/
def ProgressTracker.update_char_index (t : ProgressTracker) (index : Nat) :
    ProgressTracker :=
  ProgressTracker.save
    { t with state := { t.state with current_char_index := index } }

/-! ## Crawl orchestrator (`scripts/orst_scraper.py`)

The domain crawl (`client.fetch_all_pages`) is abstracted as an oracle
from the domain character to its word list or an error message, and
Unicode NFC normalization as an opaque function on strings. -/

namespace ORSTScraper

/-- `ORSTScraper.scrape_character` (lines 67-91): reuse the stored words
when the character is already completed (a missing entry would be a
`KeyError`); otherwise crawl the domain, normalize if configured, and
mark it completed (which persists the checkpoint). -/
def scrape_character (oracle : Char → Except String (List String))
    (normalize : String → String) (normalize_unicode : Bool)
    (t : ProgressTracker) (now : Nat) (char : Char) :
    Except String (List String × ProgressTracker) :=
  if char ∈ t.state.completed_chars then
    match t.state.saved_results.lookup char with
    | some ws => .ok (ws, t)
    | none => .error "KeyError"
  else
    match oracle char with
    | .error e => .error e
    | .ok words =>
        let words := if normalize_unicode then words.map normalize else words
        .ok (words, t.mark_char_completed now char words)

/-- The `for index in range(start_index, len(THAI_ALPHABET))` loop of
`ORSTScraper.scrape_all` (lines 114-136): scrape each character, extend
the accumulated words, advance and persist the index; any failure is
re-raised unchanged, leaving the tracker as it was before the failing
character. -/
def scrape_loop (oracle : Char → Except String (List String))
    (normalize : String → String) (normalize_unicode : Bool)
    (t : ProgressTracker) (acc : List String) :
    List Nat → Except (String × ProgressTracker) (List String × ProgressTracker)
  | [] => .ok (acc, t)
  | index :: rest =>
      let char := THAI_ALPHABET.getD index ' '
      match scrape_character oracle normalize normalize_unicode t index char with
      | .error e => .error (e, t)
      | .ok (words, t1) =>
          scrape_loop oracle normalize normalize_unicode
            (t1.update_char_index (index + 1)) (acc ++ words) rest

/-- `ORSTScraper.scrape_all` (lines 93-139): run the loop from the
current character index to the end of the alphabet. -/
def scrape_all (oracle : Char → Except String (List String))
    (normalize : String → String) (normalize_unicode : Bool)
    (t : ProgressTracker) :
    Except (String × ProgressTracker) (List String × ProgressTracker) :=
  scrape_loop oracle normalize normalize_unicode t []
    (List.range' t.state.current_char_index
      (THAI_ALPHABET.length - t.state.current_char_index))

end ORSTScraper

/-! ## Concrete inputs used in counterexamples and witnesses -/

/-- A single-page fetch for one domain whose page 2 fails while pages 1
and 3 succeed (page 1 reports 25 words, so 3 pages in total). -/
def page2_failing_sync : Nat → Except String ORSTAPIClient.APIResponse :=
  fun p =>
    if p = 1 then .ok ⟨25, ["a"], 1, 'ก'⟩
    else if p = 3 then .ok ⟨25, ["c"], 3, 'ก'⟩
    else .error "E"

/-- The same failing fetch for the bounded-concurrent client. -/
def page2_failing_async : Nat → Except String AsyncORSTAPIClient.AsyncAPIResponse :=
  fun p =>
    if p = 1 then .ok ⟨25, ["a"], 1, 'ก'⟩
    else if p = 3 then .ok ⟨25, ["c"], 3, 'ก'⟩
    else .error "E"

/-- A single-page fetch that fails on every page, page 1 included. -/
def page1_failing_sync : Nat → Except String ORSTAPIClient.APIResponse :=
  fun _ => .error "E1"

/-- A network that always answers 200 with a payload that violates the
response contract (a JSON object instead of a two-element list). -/
def always_malformed : Nat → NetOutcome := fun _ => .resp 200 (.obj [])

/-- A network that always answers with a non-retryable 404 status. -/
def always_404 : Nat → NetOutcome := fun _ => .resp 404 (.obj [])

/-- A network oracle that answers every `(domain, page)` with the same
successful parsed response. -/
def const_net : Char × Nat → Except Unit (Int × List String) :=
  fun _ => .ok (3, ["กข"])

/-- A domain crawl oracle that succeeds on the first alphabet character
and fails on every other domain. -/
def first_domain_only_oracle : Char → Except String (List String) :=
  fun c => if c = 'ก' then .ok ["กก"] else .error "boom"

/-- The client state after a first, uncached, successful fetch of
`(domain, page)`: the parsed response has been persisted to the cache,
and one network call and one rate-limit wait have been recorded. -/
def first_fetch_state (st : ORSTAPIClient.ClientState) (domain : Char)
    (page : Nat) (tc : Int) (ws : List String) : ORSTAPIClient.ClientState :=
  ⟨((domain, page), ORSTAPIClient.CacheFile.readable ⟨tc, ws, page, domain⟩) :: st.cache,
    st.network_calls + 1, st.rate_limit_waits + 1⟩

/-- The words the orchestrator stores for domain index `j` when the
crawl of that domain succeeds: the oracle words, normalized when
configured. -/
def expected_words (oracle : Char → Except String (List String))
    (normalize : String → String) (normalize_unicode : Bool) (j : Nat) :
    List String :=
  match oracle (THAI_ALPHABET.getD j ' ') with
  | .ok ws => if normalize_unicode then ws.map normalize else ws
  | .error _ => []

/-- The in-memory progress state after the first `k` domains completed
successfully from a fresh start. -/
def c4_state (oracle : Char → Except String (List String))
    (normalize : String → String) (normalize_unicode : Bool) (k : Nat) :
    ProgressState :=
  { current_char_index := k,
    completed_chars := (List.range' 0 k).map (fun j => THAI_ALPHABET.getD j ' '),
    total_words_scraped :=
      ((List.range' 0 k).map
        (fun j => (expected_words oracle normalize normalize_unicode j).length)).sum,
    last_update_time := k - 1,
    saved_results :=
      (List.range' 0 k).map
        (fun j => (THAI_ALPHABET.getD j ' ',
          expected_words oracle normalize normalize_unicode j)) }

/-- The tracker after the first `k` domains completed successfully from a
fresh start: the checkpoint file exists from the first save on. -/
def c4_tracker (oracle : Char → Except String (List String))
    (normalize : String → String) (normalize_unicode : Bool) (k : Nat) :
    ProgressTracker :=
  ⟨c4_state oracle normalize normalize_unicode k,
    if k = 0 then none else some (c4_state oracle normalize normalize_unicode k)⟩

/-- The progress state reached from `st` after successfully crawling the
`k` domains at alphabet indices `start .. start + k - 1`, the crawl loop
passing the domain index as the clock. -/
def shifted_state (st : ProgressState)
    (oracle : Char → Except String (List String))
    (normalize : String → String) (normalize_unicode : Bool)
    (start k : Nat) : ProgressState :=
  { current_char_index := start + k,
    completed_chars := st.completed_chars ++
      (List.range' start k).map (fun j => THAI_ALPHABET.getD j ' '),
    total_words_scraped := st.total_words_scraped +
      ((List.range' start k).map
        (fun j => (expected_words oracle normalize normalize_unicode j).length)).sum,
    last_update_time := start + k - 1,
    saved_results := st.saved_results ++
      (List.range' start k).map
        (fun j => (THAI_ALPHABET.getD j ' ',
          expected_words oracle normalize normalize_unicode j)) }

/-- The tracker reached from `t` after successfully crawling the `k`
domains at indices `start .. start + k - 1`: untouched for `k = 0`,
otherwise in-memory state and persisted checkpoint agree on the shifted
state. -/
def shifted_tracker (t : ProgressTracker)
    (oracle : Char → Except String (List String))
    (normalize : String → String) (normalize_unicode : Bool)
    (start k : Nat) : ProgressTracker :=
  if k = 0 then t else
    ⟨shifted_state t.state oracle normalize normalize_unicode start k,
      some (shifted_state t.state oracle normalize normalize_unicode start k)⟩

/-! ## Theorems -/

theorem total_pages_eq_ceil (n : Nat) :
    ((n : Int) + RESULTS_PER_PAGE - 1).fdiv RESULTS_PER_PAGE = ⌈(n : ℚ) / 10⌉ := by
  have h0 : ((n : Int) + RESULTS_PER_PAGE - 1) = ((n + 9 : Nat) : Int) := by
    unfold RESULTS_PER_PAGE
    push_cast
    ring
  have h10 : RESULTS_PER_PAGE = (10 : Int) := rfl
  rw [h0, h10, Int.fdiv_eq_ediv _ (by norm_num)]
  have main : (((n + 9) / 10 : Nat) : Int) = ⌈(n : ℚ) / 10⌉ := by
    symm
    set q := (n + 9) / 10 with hq_def
    rw [Int.ceil_eq_iff]
    push_cast
    have key1 : (q : ℚ) - 1 < (n : ℚ) / 10 :=
      (lt_div_iff₀ (by norm_num : (0:ℚ) < 10)).mpr
        (by
          have h : ((q : ℚ)) * 10 < (n : ℚ) + 10 := by
            exact_mod_cast (by omega : q * 10 < n + 10)
          linarith)
    have key2 : (n : ℚ) / 10 ≤ (q : ℚ) :=
      (div_le_iff₀ (by norm_num : (0:ℚ) < 10)).mpr
        (by
          have h : (n : ℚ) ≤ ((q : ℚ)) * 10 := by
            exact_mod_cast (by omega : n ≤ q * 10)
          linarith)
    exact ⟨by linarith, by linarith⟩
  rw [← main]
  exact_mod_cast rfl

/-- Claim C7: for every non-negative `total_count`, the `total_pages` of a
page response (in both the synchronous and the asynchronous client)
equals the ceiling of `total_count / page_size` with the fixed page size
of 10 words; in particular `total_pages` is 0 when `total_count` is 0. -/
theorem c7_total_pages_is_ceil (n : Nat) (ws : List String) (pg : Nat) (d : Char) :
    RESULTS_PER_PAGE = 10 ∧
    (ORSTAPIClient.APIResponse.mk (n : Int) ws pg d).total_pages = ⌈(n : ℚ) / 10⌉ ∧
    (AsyncORSTAPIClient.AsyncAPIResponse.mk (n : Int) ws pg d).total_pages = ⌈(n : ℚ) / 10⌉ ∧
    (ORSTAPIClient.APIResponse.mk 0 ws pg d).total_pages = 0 ∧
    (AsyncORSTAPIClient.AsyncAPIResponse.mk 0 ws pg d).total_pages = 0 :=
  ⟨rfl, total_pages_eq_ceil n, total_pages_eq_ceil n, rfl, rfl⟩

/-- Claim C8: the diff engine treats both word lists as sets; `added` is
`new` minus `old`, `removed` is `old` minus `new`, `unchanged` is the
intersection, and the counts are the input list lengths; the documented
example holds, and the function is deterministic. -/
theorem c8_compare_dictionaries_sets :
    (∀ old_words new_words : List String,
        (compare_dictionaries old_words new_words).added_words =
          new_words.toFinset \ old_words.toFinset ∧
        (compare_dictionaries old_words new_words).removed_words =
          old_words.toFinset \ new_words.toFinset ∧
        (compare_dictionaries old_words new_words).unchanged_words =
          old_words.toFinset ∩ new_words.toFinset ∧
        (compare_dictionaries old_words new_words).old_count = old_words.length ∧
        (compare_dictionaries old_words new_words).new_count = new_words.length) ∧
    compare_dictionaries ["a", "b"] ["b", "c"] =
      ⟨{"c"}, {"a"}, {"b"}, 2, 2⟩ ∧
    (∀ old_words new_words : List String,
        compare_dictionaries old_words new_words =
          compare_dictionaries old_words new_words) :=
  ⟨fun _ _ => ⟨rfl, rfl, rfl, rfl, rfl⟩, by decide, fun _ _ => rfl⟩

/-- Claim C3, counterexample: a payload whose count is negative and whose
word entries are not strings passes the synchronous validation, although
the claim requires any such payload to raise `ValidationError`. -/
theorem c3_counterexample :
    ORSTAPIClient.validate_response (.arr [.int (-5), .arr [.int 7]]) =
      .ok (-5, [.int 7]) := rfl

/-- Claim C3, amended: the synchronous validation succeeds exactly when
the payload is a list of exactly two elements, the first an integer of
any sign and the second a list of arbitrary values taken unchanged as
the word list; the asynchronous parse accepts any list of length at
least two whose second element is a list and whose first converts with
`int`, and keeps only the object elements, mapped to their
headword/word field. -/
theorem c3_amended_validation :
    (∀ (data : JsonVal) (n : Int) (ws : List JsonVal),
        ORSTAPIClient.validate_response data = .ok (n, ws) ↔
          data = .arr [.int n, .arr ws]) ∧
    (∀ (a : JsonVal) (n : Int) (items rest : List JsonVal),
        pyInt a = .ok n →
        AsyncORSTAPIClient.parse_response (.arr (a :: .arr items :: rest)) =
          .ok n (AsyncORSTAPIClient.extract_words items)) := by
  constructor
  · intro data n ws
    constructor
    · intro h
      unfold ORSTAPIClient.validate_response at h
      split at h
      · rename_i n2 ws2
        injection h with h2
        injection h2 with ha hb
        subst ha
        subst hb
        rfl
      · exact absurd h (by simp)
    · intro h
      subst h
      rfl
  · intro a n items rest h
    simp [AsyncORSTAPIClient.parse_response, h]

/-- Claim C3, witness for the amended theorem at concrete payloads. -/
theorem c3_amended_validation_witness :
    (ORSTAPIClient.validate_response (.arr [.int 3, .arr []]) = .ok (3, []) ↔
      (JsonVal.arr [.int 3, .arr []]) = .arr [.int 3, .arr []]) ∧
    AsyncORSTAPIClient.parse_response (.arr [.int 5, .arr [], .str "x"]) =
      .ok 5 (AsyncORSTAPIClient.extract_words []) :=
  ⟨c3_amended_validation.1 (.arr [.int 3, .arr []]) 3 [],
    c3_amended_validation.2 (.int 5) 5 [] [.str "x"] rfl⟩

/-- Claim C2, counterexample: with the default retry budget, a malformed
response makes the asynchronous `fetch_page` perform four network
attempts (the `ValueError` is caught and retried), not one. -/
theorem c2_counterexample :
    AsyncORSTAPIClient.fetch_page_attempts always_malformed MAX_RETRIES =
      (.error .runtimeError, MAX_RETRIES + 1) ∧ MAX_RETRIES + 1 ≠ 1 := by
  exact ⟨rfl, by decide⟩

theorem async_go_caught (outcomes : Nat → NetOutcome)
    (h : ∀ k1, AsyncORSTAPIClient.classify_attempt (outcomes k1) =
      AsyncORSTAPIClient.AsyncAttempt.caught) :
    ∀ fuel attempt, AsyncORSTAPIClient.fetch_page_go outcomes fuel attempt =
      (.error .runtimeError, attempt + fuel) := by
  intro fuel
  induction fuel with
  | zero =>
      intro attempt
      simp [AsyncORSTAPIClient.fetch_page_go]
  | succ f ih =>
      intro attempt
      unfold AsyncORSTAPIClient.fetch_page_go
      simp only [h attempt]
      rw [show attempt + (f + 1) = attempt + 1 + f from by omega]
      exact ih (attempt + 1)

/-- Claim C2, amended: in the synchronous client the claim holds — a
response with a status outside the forcelist `[429, 500, 502, 503, 504]`
is returned after a single network attempt, so a non-retryable 4xx fails
at once, and a malformed payload on a returned 2xx response fails with
`ValidationError` after that single attempt. In the asynchronous client,
however, every HTTP status error (any status of 400 or above) and every
malformed-response `ValueError` is caught and retried, consuming the full
`max_retries + 1` attempts. -/
theorem c2_amended_retry_policy :
    (∀ (outcomes : Nat → NetOutcome) (max_retries s : Nat) (p : JsonVal),
        outcomes 0 = .resp s p →
        s ∉ ORSTAPIClient.RETRY_STATUS_FORCELIST → 400 ≤ s →
        ORSTAPIClient.fetch_page_attempts outcomes max_retries =
          (.error (.httpStatus s), 1)) ∧
    (∀ (outcomes : Nat → NetOutcome) (max_retries s : Nat) (p : JsonVal),
        outcomes 0 = .resp s p →
        s ∉ ORSTAPIClient.RETRY_STATUS_FORCELIST → s < 400 →
        ORSTAPIClient.validate_response p = .error () →
        ORSTAPIClient.fetch_page_attempts outcomes max_retries =
          (.error .validation, 1)) ∧
    (∀ (max_retries s : Nat) (p : JsonVal), 400 ≤ s →
        AsyncORSTAPIClient.fetch_page_attempts (fun _ => .resp s p) max_retries =
          (.error .runtimeError, max_retries + 1)) ∧
    (∀ (max_retries : Nat) (p : JsonVal),
        AsyncORSTAPIClient.parse_response p = .valueError →
        AsyncORSTAPIClient.fetch_page_attempts (fun _ => .resp 200 p) max_retries =
          (.error .runtimeError, max_retries + 1)) := by
  refine ⟨?_, ?_, ?_, ?_⟩
  · intro outcomes max_retries s p h0 hmem h400
    unfold ORSTAPIClient.fetch_page_attempts ORSTAPIClient.session_get
      ORSTAPIClient.session_get_go
    simp [h0, hmem, h400]
  · intro outcomes max_retries s p h0 hmem h400 hval
    unfold ORSTAPIClient.fetch_page_attempts ORSTAPIClient.session_get
      ORSTAPIClient.session_get_go
    simp [h0, hmem, Nat.not_le.mpr h400, hval]
  · intro max_retries s p h400
    have h : ∀ k1, AsyncORSTAPIClient.classify_attempt
        ((fun _ : Nat => NetOutcome.resp s p) k1) =
        AsyncORSTAPIClient.AsyncAttempt.caught := by
      intro k1
      simp [AsyncORSTAPIClient.classify_attempt, h400]
    have := async_go_caught _ h (max_retries + 1) 0
    simpa [AsyncORSTAPIClient.fetch_page_attempts] using this
  · intro max_retries p hval
    have h : ∀ k1, AsyncORSTAPIClient.classify_attempt
        ((fun _ : Nat => NetOutcome.resp 200 p) k1) =
        AsyncORSTAPIClient.AsyncAttempt.caught := by
      intro k1
      simp [AsyncORSTAPIClient.classify_attempt, hval]
    have := async_go_caught _ h (max_retries + 1) 0
    simpa [AsyncORSTAPIClient.fetch_page_attempts] using this

/-- Claim C2, witness for the amended theorem: a constant 404 and a
constant malformed 200 under the default retry budget. -/
theorem c2_amended_retry_policy_witness :
    ORSTAPIClient.fetch_page_attempts always_404 MAX_RETRIES =
      (.error (.httpStatus 404), 1) ∧
    ORSTAPIClient.fetch_page_attempts always_malformed MAX_RETRIES =
      (.error .validation, 1) ∧
    AsyncORSTAPIClient.fetch_page_attempts always_404 MAX_RETRIES =
      (.error .runtimeError, MAX_RETRIES + 1) ∧
    AsyncORSTAPIClient.fetch_page_attempts always_malformed MAX_RETRIES =
      (.error .runtimeError, MAX_RETRIES + 1) :=
  ⟨c2_amended_retry_policy.1 always_404 MAX_RETRIES 404 (.obj []) rfl
      (by decide) (by norm_num),
    c2_amended_retry_policy.2.1 always_malformed MAX_RETRIES 200 (.obj []) rfl
      (by decide) (by norm_num) rfl,
    c2_amended_retry_policy.2.2.1 MAX_RETRIES 404 (.obj []) (by norm_num),
    c2_amended_retry_policy.2.2.2 MAX_RETRIES (.obj []) rfl⟩

/-- Claim C1, counterexample: with page 2 of 3 failing, the sequential
strategy aborts with the error, but the bounded-concurrent strategy
returns the partial word list of the pages that succeeded instead of
aborting. -/
theorem c1_counterexample :
    ORSTAPIClient.fetch_all_pages page2_failing_sync = .error "E" ∧
    AsyncORSTAPIClient.fetch_all_pages page2_failing_async = .ok ["a", "c"] :=
  ⟨rfl, rfl⟩

theorem sync_loop_error (fetch : Nat → Except String ORSTAPIClient.APIResponse)
    (p : Nat) (l2 : List Nat) (e : String) (hfail : fetch p = .error e) :
    ∀ (l1 : List Nat) (acc : List String),
      (∀ q ∈ l1, ∃ r, fetch q = .ok r) →
      ORSTAPIClient.fetch_pages_loop fetch acc (l1 ++ p :: l2) = .error e := by
  intro l1
  induction l1 with
  | nil =>
      intro acc _
      simp [ORSTAPIClient.fetch_pages_loop, hfail]
  | cons q l1 ih =>
      intro acc hok
      obtain ⟨r, hfq⟩ := hok q (by simp)
      simp only [List.cons_append, ORSTAPIClient.fetch_pages_loop, hfq]
      exact ih (acc ++ r.words) (fun q2 hq2 => hok q2 (by simp [hq2]))

/-- Claim C1, amended: a failure of page 1 aborts the domain crawl in
both strategies; in the sequential strategy a failure on any later page
(the first failing one, all pages before it succeeding) also aborts with
that error and no partial list; but in the bounded-concurrent strategy,
once page 1 succeeds the crawl always returns a word list, concatenating
page 1 with the words of exactly the later pages that succeeded, in task
order, silently dropping the failed ones. -/
theorem c1_amended_abort_behaviour :
    (∀ (fetch : Nat → Except String ORSTAPIClient.APIResponse) (e : String),
        fetch 1 = .error e → ORSTAPIClient.fetch_all_pages fetch = .error e) ∧
    (∀ (fetch : Nat → Except String AsyncORSTAPIClient.AsyncAPIResponse)
        (e : String),
        fetch 1 = .error e → AsyncORSTAPIClient.fetch_all_pages fetch = .error e) ∧
    (∀ (fetch : Nat → Except String ORSTAPIClient.APIResponse)
        (first : ORSTAPIClient.APIResponse) (l1 : List Nat) (p : Nat)
        (l2 : List Nat) (e : String),
        fetch 1 = .ok first →
        ORSTAPIClient.remaining_pages first = l1 ++ p :: l2 →
        (∀ q ∈ l1, ∃ r, fetch q = .ok r) →
        fetch p = .error e →
        ORSTAPIClient.fetch_all_pages fetch = .error e) ∧
    (∀ (fetch : Nat → Except String AsyncORSTAPIClient.AsyncAPIResponse)
        (first : AsyncORSTAPIClient.AsyncAPIResponse),
        fetch 1 = .ok first → 1 < first.total_pages →
        AsyncORSTAPIClient.fetch_all_pages fetch =
          .ok (first.words ++
            ((List.range' 2 (first.total_pages.toNat - 1)).map
              (AsyncORSTAPIClient.page_words fetch)).flatten)) := by
  refine ⟨?_, ?_, ?_, ?_⟩
  · intro fetch e h
    simp [ORSTAPIClient.fetch_all_pages, h]
  · intro fetch e h
    simp [AsyncORSTAPIClient.fetch_all_pages, h]
  · intro fetch first l1 p l2 e h1 hsplit hok hfail
    have hstep : ORSTAPIClient.fetch_all_pages fetch =
        ORSTAPIClient.fetch_pages_loop fetch first.words
          (ORSTAPIClient.remaining_pages first) := by
      simp [ORSTAPIClient.fetch_all_pages, h1]
    rw [hstep, hsplit]
    exact sync_loop_error fetch p l2 e hfail l1 first.words hok
  · intro fetch first h1 hlt
    unfold AsyncORSTAPIClient.fetch_all_pages
    rw [h1]
    simp [not_le.mpr hlt]

/-- Claim C1, witness for the amended theorem: a fetch failing at page 1
aborts, and the page-2-of-3 failure leaves the concurrent strategy with
the partial list of pages 1 and 3. -/
theorem c1_amended_abort_behaviour_witness :
    ORSTAPIClient.fetch_all_pages page1_failing_sync = .error "E1" ∧
    ORSTAPIClient.fetch_all_pages page2_failing_sync = .error "E" ∧
    AsyncORSTAPIClient.fetch_all_pages page2_failing_async = .ok ["a", "c"] := by
  refine ⟨?_, ?_, ?_⟩
  · exact c1_amended_abort_behaviour.1 page1_failing_sync "E1" rfl
  · exact c1_amended_abort_behaviour.2.2.1 page2_failing_sync
      ⟨25, ["a"], 1, 'ก'⟩ [] 2 [3] "E" rfl rfl (by simp) rfl
  · have h := c1_amended_abort_behaviour.2.2.2 page2_failing_async
      ⟨25, ["a"], 1, 'ก'⟩ rfl (by decide)
    rw [h]
    rfl

/-- Claim C5: with caching enabled, a readable cache entry for
`(domain, page)` is returned directly — the state is untouched, so no
network call is issued and no rate-limit wait happens; and on a cache
miss, a successful fetch issues exactly one network call, persists the
response to the cache before returning it, and a second fetch of the
same key then returns that cached response with no further network
call. -/
theorem c5_cache_single_network_call
    (net : Char × Nat → Except Unit (Int × List String))
    (st : ORSTAPIClient.ClientState) (domain : Char) (page : Nat) :
    (∀ r, ORSTAPIClient.load_from_cache true st domain page = some r →
        ORSTAPIClient.fetch_page true net st domain page = .ok (r, st)) ∧
    (∀ (tc : Int) (ws : List String),
        ORSTAPIClient.load_from_cache true st domain page = none →
        net (domain, page) = .ok (tc, ws) →
        ORSTAPIClient.fetch_page true net st domain page =
          .ok (⟨tc, ws, page, domain⟩, first_fetch_state st domain page tc ws) ∧
        (first_fetch_state st domain page tc ws).network_calls =
          st.network_calls + 1 ∧
        ORSTAPIClient.load_from_cache true
          (first_fetch_state st domain page tc ws) domain page =
          some ⟨tc, ws, page, domain⟩ ∧
        ORSTAPIClient.fetch_page true net
          (first_fetch_state st domain page tc ws) domain page =
          .ok (⟨tc, ws, page, domain⟩, first_fetch_state st domain page tc ws)) := by
  constructor
  · intro r h
    simp [ORSTAPIClient.fetch_page, h]
  · intro tc ws hmiss hnet
    refine ⟨?_, rfl, ?_, ?_⟩
    · simp [ORSTAPIClient.fetch_page, hmiss, hnet, ORSTAPIClient.save_to_cache,
        first_fetch_state]
    · simp [ORSTAPIClient.load_from_cache, first_fetch_state, List.lookup]
    · simp [ORSTAPIClient.fetch_page, ORSTAPIClient.load_from_cache,
        first_fetch_state, List.lookup]

/-- Claim C5, witness: a concrete first fetch on an empty cache followed
by a second fetch of the same key. -/
theorem c5_cache_single_network_call_witness :
    ORSTAPIClient.fetch_page true const_net ⟨[], 0, 0⟩ 'ก' 1 =
      .ok (⟨3, ["กข"], 1, 'ก'⟩, first_fetch_state ⟨[], 0, 0⟩ 'ก' 1 3 ["กข"]) ∧
    (first_fetch_state ⟨[], 0, 0⟩ 'ก' 1 3 ["กข"]).network_calls = 0 + 1 ∧
    ORSTAPIClient.load_from_cache true
      (first_fetch_state ⟨[], 0, 0⟩ 'ก' 1 3 ["กข"]) 'ก' 1 =
      some ⟨3, ["กข"], 1, 'ก'⟩ ∧
    ORSTAPIClient.fetch_page true const_net
      (first_fetch_state ⟨[], 0, 0⟩ 'ก' 1 3 ["กข"]) 'ก' 1 =
      .ok (⟨3, ["กข"], 1, 'ก'⟩, first_fetch_state ⟨[], 0, 0⟩ 'ก' 1 3 ["กข"]) :=
  (c5_cache_single_network_call const_net ⟨[], 0, 0⟩ 'ก' 1).2 3 ["กข"] rfl rfl

theorem key_le_self_append (l v : List (Nat × Nat)) :
    key_le l (l ++ v) = true := by
  induction l with
  | nil => rfl
  | cons a l ih => simp [key_le, lt_self_iff_false, ih]

theorem key_le_append_self_false (l v : List (Nat × Nat)) (hv : v ≠ []) :
    key_le (l ++ v) l = false := by
  induction l with
  | nil =>
      cases v with
      | nil => exact absurd rfl hv
      | cons a k => rfl
  | cons a l ih => simp [key_le, lt_self_iff_false, ih]

theorem sort_key_push (w : String) (c : Char) :
    sort_key (w.push c) = sort_key w ++ [char_sort_key c] := by
  simp [sort_key, String.data_push]

theorem sort_key_append (w v : String) :
    sort_key (w ++ v) = sort_key w ++ sort_key v := by
  simp [sort_key, String.data_append]

theorem sort_key_ne_nil (v : String) (hv : v ≠ "") : sort_key v ≠ [] := by
  intro h
  cases hd : v.data with
  | nil => exact hv (String.ext (hd.trans rfl))
  | cons a k =>
      rw [show sort_key v = v.data.map char_sort_key from rfl, hd] at h
      exact absurd h (by simp)

/-- Claim C6: the collation orders words by the lexicographic comparison
of their per-character key sequences with strict prefixes first: sorting
the alphabet letters given as `[B, A, C]` yields `[A, B, C]`; appending
an alphabet symbol to any word moves it strictly later; and any word
sorts strictly before any proper extension of itself. -/
theorem c6_collation_order :
    sort_thai_words ["ข", "ก", "ค"] = ["ก", "ข", "ค"] ∧
    (∀ (w : String) (s : Char), s ∈ THAI_ALPHABET → word_lt w (w.push s)) ∧
    (∀ (w v : String), v ≠ "" → word_lt w (w ++ v)) := by
  refine ⟨by decide, ?_, ?_⟩
  · intro w s _
    constructor
    · show key_le (sort_key w) (sort_key (w.push s)) = true
      rw [sort_key_push]
      exact key_le_self_append _ _
    · show key_le (sort_key (w.push s)) (sort_key w) = false
      rw [sort_key_push]
      exact key_le_append_self_false _ _ (by simp)
  · intro w v hv
    constructor
    · show key_le (sort_key w) (sort_key (w ++ v)) = true
      rw [sort_key_append]
      exact key_le_self_append _ _
    · show key_le (sort_key (w ++ v)) (sort_key w) = false
      rw [sort_key_append]
      exact key_le_append_self_false _ _ (sort_key_ne_nil v hv)

/-- Claim C6, witness: the sort example, and the strict-order facts for a
concrete word, alphabet symbol and extension. -/
theorem c6_collation_order_witness :
    sort_thai_words ["ข", "ก", "ค"] = ["ก", "ข", "ค"] ∧
    word_lt "ก" ("ก".push 'ข') ∧ word_lt "ก" ("ก" ++ "ข") :=
  ⟨c6_collation_order.1, c6_collation_order.2.1 "ก" 'ข' (by decide),
    c6_collation_order.2.2 "ก" "ข" (by decide)⟩

/-- Claim C9: under `strict_thai_only`, every word surviving the filter
consists only of Thai-script characters in the configured ranges, plus
whitespace exactly when compounds are allowed; in particular no surviving
word contains a hyphen or an en-dash, whatever the compound setting. -/
theorem c9_strict_filter_thai_only (ws : List String) (ac : Bool) (w : String)
    (hw : w ∈ filter_invalid_words ws ac true) :
    (∀ c ∈ w.data,
        is_thai_character c = true ∨ (ac = true ∧ python_isspace c = true)) ∧
    '-' ∉ w.data ∧ '–' ∉ w.data := by
  simp only [filter_invalid_words, List.mem_filter] at hw
  have hp := hw.2
  simp only [Bool.and_eq_true] at hp
  have hvalid : is_valid_thai_word w ac = true := by simpa using hp.2
  have hall : w.data.all
      (fun c => if python_isspace c then ac else is_thai_character c) = true := by
    have hv := hvalid
    simp only [is_valid_thai_word, Bool.and_eq_true] at hv
    exact hv.2
  have hchar : ∀ c ∈ w.data,
      is_thai_character c = true ∨ (ac = true ∧ python_isspace c = true) := by
    intro c hc
    have hcc := List.all_eq_true.mp hall c hc
    by_cases hs : python_isspace c = true
    · right
      simp only [hs, if_true] at hcc
      exact ⟨hcc, hs⟩
    · left
      simpa [hs] using hcc
  refine ⟨hchar, ?_, ?_⟩
  · intro hmem1
    rcases hchar '-' hmem1 with h | ⟨-, h⟩ <;> exact absurd h (by decide)
  · intro hmem2
    rcases hchar '–' hmem2 with h | ⟨-, h⟩ <;> exact absurd h (by decide)

/-- Claim C9, witness: a concrete filtered list with compounds allowed. -/
theorem c9_strict_filter_thai_only_witness :
    (∀ c ∈ ("กข" : String).data,
        is_thai_character c = true ∨ (true = true ∧ python_isspace c = true)) ∧
    '-' ∉ ("กข" : String).data ∧ '–' ∉ ("กข" : String).data :=
  c9_strict_filter_thai_only ["กข", "ab"] true "กข" (by decide)

theorem dict_insert_fresh (k : Char) (v : List String)
    (l : List (Char × List String)) (h : k ∉ l.map Prod.fst) :
    dict_insert k v l = l ++ [(k, v)] := by
  induction l with
  | nil => rfl
  | cons p l ih =>
      obtain ⟨k1, v1⟩ := p
      simp only [List.map_cons, List.mem_cons] at h
      push_neg at h
      simp only [dict_insert]
      rw [if_neg (fun hh => h.1 hh.symm), ih h.2]
      simp

theorem mark_completed_fresh (st : ProgressState) (now : Nat) (char : Char)
    (words : List String) (h : char ∉ st.saved_results.map Prod.fst) :
    (st.mark_completed now char words).get_all_words =
      st.get_all_words ++ words ∧
    (st.mark_completed now char words).saved_results.map Prod.fst =
      st.saved_results.map Prod.fst ++ [char] := by
  unfold ProgressState.mark_completed ProgressState.get_all_words
  rw [dict_insert_fresh char words _ h]
  constructor <;> simp

theorem fold_mark_invariant (seq : List (Char × List String)) :
    ∀ (st : ProgressState), (seq.map Prod.fst).Nodup →
      (∀ k ∈ seq.map Prod.fst, k ∉ st.saved_results.map Prod.fst) →
      st.total_words_scraped = st.get_all_words.length →
      (seq.foldl (fun st1 p => st1.mark_completed 0 p.1 p.2) st).total_words_scraped =
        (seq.foldl (fun st1 p => st1.mark_completed 0 p.1 p.2) st).get_all_words.length := by
  induction seq with
  | nil =>
      intro st _ _ h
      simpa using h
  | cons p rest ih =>
      intro st hnd hfresh hinv
      obtain ⟨c, ws⟩ := p
      simp only [List.map_cons] at hnd
      have hcons := List.nodup_cons.mp hnd
      simp only [List.foldl_cons]
      have hcfresh : c ∉ st.saved_results.map Prod.fst := hfresh c (by simp)
      have hmk := mark_completed_fresh st 0 c ws hcfresh
      apply ih
      · exact hcons.2
      · intro k hk
        rw [hmk.2]
        simp only [List.mem_append, List.mem_singleton]
        push_neg
        refine ⟨hfresh k (by simp [hk]), ?_⟩
        intro hkc
        exact hcons.1 (hkc ▸ hk)
      · rw [hmk.1]
        simp only [List.length_append]
        have htot : (st.mark_completed 0 c ws).total_words_scraped =
            st.total_words_scraped + ws.length := rfl
        rw [htot, hinv]

/-- Claim C10: from a fresh progress state, after any sequence of
`mark_completed` calls with pairwise-distinct characters, the running
total `total_words_scraped` equals the length of `get_all_words()`,
which is the sum of the lengths of the stored word lists. -/
theorem c10_total_words_scraped (seq : List (Char × List String))
    (hnd : (seq.map Prod.fst).Nodup) :
    (seq.foldl (fun (st : ProgressState) p => st.mark_completed 0 p.1 p.2) ({} : ProgressState)).total_words_scraped =
      (seq.foldl (fun (st : ProgressState) p => st.mark_completed 0 p.1 p.2) ({} : ProgressState)).get_all_words.length ∧
    (seq.foldl (fun (st : ProgressState) p => st.mark_completed 0 p.1 p.2) ({} : ProgressState)).total_words_scraped =
      ((seq.foldl (fun (st : ProgressState) p => st.mark_completed 0 p.1 p.2) ({} : ProgressState)).saved_results.map
        (fun pr => pr.2.length)).sum := by
  have h1 := fold_mark_invariant seq {} hnd (by simp) rfl
  refine ⟨h1, ?_⟩
  rw [h1]
  simp only [ProgressState.get_all_words, List.length_flatten, List.map_map]
  rfl

/-- Claim C10, witness: two distinct characters with word lists of
lengths 2 and 1. -/
theorem c10_total_words_scraped_witness :
    ([(('ก' : Char), ["a", "b"]), ('ข', ["c"])].foldl
      (fun (st : ProgressState) p => st.mark_completed 0 p.1 p.2) ({} : ProgressState)).total_words_scraped =
      ([(('ก' : Char), ["a", "b"]), ('ข', ["c"])].foldl
        (fun (st : ProgressState) p => st.mark_completed 0 p.1 p.2) ({} : ProgressState)).get_all_words.length ∧
    ([(('ก' : Char), ["a", "b"]), ('ข', ["c"])].foldl
      (fun (st : ProgressState) p => st.mark_completed 0 p.1 p.2) ({} : ProgressState)).total_words_scraped =
      (([(('ก' : Char), ["a", "b"]), ('ข', ["c"])].foldl
        (fun (st : ProgressState) p => st.mark_completed 0 p.1 p.2) ({} : ProgressState)).saved_results.map
        (fun pr => pr.2.length)).sum :=
  c10_total_words_scraped [('ก', ["a", "b"]), ('ข', ["c"])] (by decide)

theorem alphabet_getD_inj (i j : Nat) (hi : i < THAI_ALPHABET.length)
    (hj : j < THAI_ALPHABET.length) (hne : i ≠ j) :
    THAI_ALPHABET.getD i ' ' ≠ THAI_ALPHABET.getD j ' ' := by
  rw [List.getD_eq_getElem _ _ hi, List.getD_eq_getElem _ _ hj]
  intro h
  exact hne ((List.Nodup.getElem_inj_iff (by decide)).mp h)

theorem scrape_loop_cons_error (oracle : Char → Except String (List String))
    (normalize : String → String) (nu : Bool) (t : ProgressTracker)
    (acc : List String) (index : Nat) (rest : List Nat) (e : String)
    (hnc : THAI_ALPHABET.getD index ' ' ∉ t.state.completed_chars)
    (herr : oracle (THAI_ALPHABET.getD index ' ') = .error e) :
    ORSTScraper.scrape_loop oracle normalize nu t acc (index :: rest) =
      .error (e, t) := by
  simp only [ORSTScraper.scrape_loop, ORSTScraper.scrape_character]
  rw [if_neg hnc, herr]

theorem shifted_state_comp (st : ProgressState)
    (oracle : Char → Except String (List String))
    (normalize : String → String) (nu : Bool) (start k : Nat) :
    shifted_state (shifted_state st oracle normalize nu start 1)
      oracle normalize nu (start + 1) k =
      shifted_state st oracle normalize nu start (k + 1) := by
  simp only [shifted_state, ProgressState.mk.injEq]
  refine ⟨by omega, ?_, ?_, by omega, ?_⟩
  · simp [List.range', List.append_assoc]
  · simp [List.range', Nat.add_assoc]
  · simp [List.range', List.append_assoc]

theorem shifted_tracker_comp (t : ProgressTracker)
    (oracle : Char → Except String (List String))
    (normalize : String → String) (nu : Bool) (start k : Nat) :
    shifted_tracker (shifted_tracker t oracle normalize nu start 1)
      oracle normalize nu (start + 1) k =
      shifted_tracker t oracle normalize nu start (k + 1) := by
  cases k with
  | zero => simp [shifted_tracker]
  | succ k2 =>
      simp only [shifted_tracker, Nat.succ_ne_zero, if_false, one_ne_zero]
      rw [shifted_state_comp]

theorem scrape_loop_cons_ok_shifted
    (oracle : Char → Except String (List String))
    (normalize : String → String) (nu : Bool) (t : ProgressTracker)
    (acc : List String) (start : Nat) (rest : List Nat) (w0 : List String)
    (hnc : THAI_ALPHABET.getD start ' ' ∉ t.state.completed_chars)
    (hns : THAI_ALPHABET.getD start ' ' ∉ t.state.saved_results.map Prod.fst)
    (hw0 : oracle (THAI_ALPHABET.getD start ' ') = .ok w0) :
    ORSTScraper.scrape_loop oracle normalize nu t acc (start :: rest) =
      ORSTScraper.scrape_loop oracle normalize nu
        (shifted_tracker t oracle normalize nu start 1)
        (acc ++ expected_words oracle normalize nu start) rest := by
  have hexp : expected_words oracle normalize nu start =
      (if nu then w0.map normalize else w0) := by
    unfold expected_words
    rw [hw0]
  have htr : shifted_tracker t oracle normalize nu start 1 =
      (t.mark_char_completed start (THAI_ALPHABET.getD start ' ')
        (if nu then w0.map normalize else w0)).update_char_index (start + 1) := by
    unfold shifted_tracker shifted_state ProgressTracker.mark_char_completed
      ProgressTracker.update_char_index ProgressTracker.save
      ProgressState.mark_completed set_add
    rw [dict_insert_fresh _ _ _ hns, if_neg hnc]
    simp [List.range', hexp]
  rw [htr, hexp]
  simp only [ORSTScraper.scrape_loop, ORSTScraper.scrape_character]
  rw [if_neg hnc, hw0]

theorem scrape_loop_fail_from (oracle : Char → Except String (List String))
    (normalize : String → String) (nu : Bool) (e : String) (k : Nat) :
    ∀ (start : Nat) (t : ProgressTracker) (acc : List String),
      start + k < THAI_ALPHABET.length →
      (∀ j, start ≤ j → j < start + k →
        ∃ w, oracle (THAI_ALPHABET.getD j ' ') = .ok w) →
      oracle (THAI_ALPHABET.getD (start + k) ' ') = .error e →
      (∀ j, start ≤ j → j < THAI_ALPHABET.length →
        THAI_ALPHABET.getD j ' ' ∉ t.state.completed_chars) →
      (∀ j, start ≤ j → j < THAI_ALPHABET.length →
        THAI_ALPHABET.getD j ' ' ∉ t.state.saved_results.map Prod.fst) →
      ORSTScraper.scrape_loop oracle normalize nu t acc
        (List.range' start (THAI_ALPHABET.length - start)) =
        .error (e, shifted_tracker t oracle normalize nu start k) := by
  induction k with
  | zero =>
      intro start t acc hlt hok hfail hnc hns
      have hstartlt : start < THAI_ALPHABET.length := by omega
      have hL : THAI_ALPHABET.length - start =
          (THAI_ALPHABET.length - (start + 1)) + 1 := by omega
      rw [hL, List.range'_succ]
      rw [Nat.add_zero] at hfail
      rw [scrape_loop_cons_error oracle normalize nu t acc start _ e
        (hnc start (le_refl _) hstartlt) hfail]
      simp [shifted_tracker]
  | succ k ihk =>
      intro start t acc hlt hok hfail hnc hns
      have hstartlt : start < THAI_ALPHABET.length := by omega
      have hL : THAI_ALPHABET.length - start =
          (THAI_ALPHABET.length - (start + 1)) + 1 := by omega
      rw [hL, List.range'_succ]
      obtain ⟨w0, hw0⟩ := hok start (le_refl _) (by omega)
      rw [scrape_loop_cons_ok_shifted oracle normalize nu t acc start _ w0
        (hnc start (le_refl _) hstartlt) (hns start (le_refl _) hstartlt) hw0]
      rw [← shifted_tracker_comp t oracle normalize nu start k]
      apply ihk
      · omega
      · intro j hj1 hj2
        exact hok j (by omega) (by omega)
      · have harith : start + 1 + k = start + (k + 1) := by omega
        rw [harith]
        exact hfail
      · intro j hj1 hj2
        simp only [shifted_tracker, one_ne_zero, if_false, shifted_state,
          List.range', List.map_cons, List.map_nil]
        rw [List.mem_append]
        push_neg
        refine ⟨hnc j (by omega) hj2, ?_⟩
        simp only [List.mem_singleton]
        exact alphabet_getD_inj j start hj2 hstartlt (by omega)
      · intro j hj1 hj2
        simp only [shifted_tracker, one_ne_zero, if_false, shifted_state,
          List.range', List.map_cons, List.map_nil, List.map_append]
        rw [List.mem_append]
        push_neg
        refine ⟨hns j (by omega) hj2, ?_⟩
        simp only [List.map_cons, List.map_nil, List.mem_singleton]
        exact alphabet_getD_inj j start hj2 hstartlt (by omega)

theorem c4_tracker_eq_shifted (oracle : Char → Except String (List String))
    (normalize : String → String) (nu : Bool) (k : Nat) :
    shifted_tracker fresh_tracker oracle normalize nu 0 k =
      c4_tracker oracle normalize nu k := by
  cases k with
  | zero => rfl
  | succ k2 =>
      simp only [shifted_tracker, c4_tracker, Nat.succ_ne_zero, if_false]
      unfold shifted_state c4_state fresh_tracker
      simp

/-- Claim C4: when the crawl of the domain at alphabet index `k` fails
after the first `k` domains succeeded from a fresh start, the
orchestrator propagates the error unchanged, the failing domain is
absent from the completed set, the checkpoint (in memory and, when a
save has happened, on disk) records exactly the first `k` domains as
completed with `current_char_index = k`, so the next run resumes at that
same domain; when the very first domain fails nothing was ever
persisted. -/
theorem c4_checkpoint_crash_atomicity
    (oracle : Char → Except String (List String))
    (normalize : String → String) (nu : Bool) (k : Nat) (e : String)
    (hk : k < THAI_ALPHABET.length)
    (hok : ∀ j, j < k → ∃ w, oracle (THAI_ALPHABET.getD j ' ') = .ok w)
    (hfail : oracle (THAI_ALPHABET.getD k ' ') = .error e) :
    ORSTScraper.scrape_all oracle normalize nu fresh_tracker =
      .error (e, c4_tracker oracle normalize nu k) ∧
    THAI_ALPHABET.getD k ' ' ∉
      (c4_tracker oracle normalize nu k).state.completed_chars ∧
    (c4_tracker oracle normalize nu k).state.current_char_index = k ∧
    (c4_tracker oracle normalize nu k).state.completed_chars =
      (List.range' 0 k).map (fun j => THAI_ALPHABET.getD j ' ') ∧
    (0 < k → (c4_tracker oracle normalize nu k).saved_file =
      some (c4_tracker oracle normalize nu k).state) ∧
    (k = 0 → (c4_tracker oracle normalize nu k).saved_file = none) := by
  have hrun := scrape_loop_fail_from oracle normalize nu e k 0 fresh_tracker []
    (by omega) (fun j hj1 hj2 => hok j (by omega)) (by simpa using hfail)
    (fun j hj1 hj2 => by simp [fresh_tracker]) (fun j hj1 hj2 => by simp [fresh_tracker])
  refine ⟨?_, ?_, rfl, rfl, ?_, ?_⟩
  · have hall : ORSTScraper.scrape_all oracle normalize nu fresh_tracker =
        ORSTScraper.scrape_loop oracle normalize nu fresh_tracker []
          (List.range' 0 (THAI_ALPHABET.length - 0)) := rfl
    rw [hall, hrun, c4_tracker_eq_shifted]
  · intro hmem
    simp only [c4_tracker, c4_state] at hmem
    obtain ⟨j, hj, hEq⟩ := List.mem_map.mp hmem
    have hjlt : 0 ≤ j ∧ j < 0 + k := List.mem_range'_1.mp hj
    exact alphabet_getD_inj j k (by omega) hk (by omega) hEq
  · intro hpos
    simp [c4_tracker, Nat.pos_iff_ne_zero.mp hpos]
  · intro h0
    subst h0
    rfl

/-- Claim C4, witness: a crawl that succeeds on the first domain and
fails on the second. -/
theorem c4_checkpoint_crash_atomicity_witness :
    ORSTScraper.scrape_all first_domain_only_oracle id false fresh_tracker =
      .error ("boom", c4_tracker first_domain_only_oracle id false 1) ∧
    THAI_ALPHABET.getD 1 ' ' ∉
      (c4_tracker first_domain_only_oracle id false 1).state.completed_chars ∧
    (c4_tracker first_domain_only_oracle id false 1).state.current_char_index = 1 ∧
    (c4_tracker first_domain_only_oracle id false 1).state.completed_chars =
      (List.range' 0 1).map (fun j => THAI_ALPHABET.getD j ' ') ∧
    (0 < 1 → (c4_tracker first_domain_only_oracle id false 1).saved_file =
      some (c4_tracker first_domain_only_oracle id false 1).state) ∧
    ((1 : Nat) = 0 →
      (c4_tracker first_domain_only_oracle id false 1).saved_file = none) :=
  c4_checkpoint_crash_atomicity first_domain_only_oracle id false 1 "boom"
    (by decide)
    (fun j hj => by
      have hj0 : j = 0 := by omega
      subst hj0
      exact ⟨["กก"], rfl⟩)
    rfl
